import Mathlib

/-!
Verification development for the `mt-renderer` XFS document reader: a shallow
embedding of `src/mtserializer.rs`, `src/util/read_struct.rs` and the parts of
the `dti` module it depends on, together with theorems about the decoding
pipeline.

Modelling conventions:
* A byte source (`Read + Seek`) is a list of byte values; reading returns the
  value together with the unconsumed remainder of the list, so "consumes `n`
  bytes" is expressed as "the remainder is `s.drop n`".
* Fallible Rust paths are `Except MtError`; every `MtError` constructor is tied
  to one concrete failure site in the source (an `anyhow` error, an
  `assert!`/`todo!`/`expect` abort, or an out-of-bounds slice index).
* `f32` values are kept as their raw 32-bit little-endian patterns; the only
  float operation in the decoder is the `assert_eq!(0.0, pad)` comparison,
  which on IEEE-754 bit patterns is exactly `bits &&& 0x7fffffff == 0`
  (only +0.0 and -0.0 compare equal to 0.0).
* SHIFT-JIS decoding (crate `encoding_rs`) is an external collaborator; string
  results are kept as the raw byte runs handed to the codec.
-/

namespace MtRenderer

/-- A byte stream: list of byte values (each `< 256` for real inputs). -/
abbrev Bytes := List Nat

/-- Little-endian integer value of a byte list. -/
def leNat : Bytes → Nat
  | [] => 0
  | b :: rest => b + 256 * leNat rest

/-- The 4 little-endian bytes of a value `v < 2^32`. -/
def leBytes32 (v : Nat) : Bytes :=
  [v % 256, v / 2 ^ 8 % 256, v / 2 ^ 16 % 256, v / 2 ^ 24 % 256]

/-- Decode failures. Each constructor corresponds to one failure site in the
source (mtserializer.rs / util/read_struct.rs); panic-style aborts
(`assert!`, `todo!`, `expect`, slice-index panics) are modelled as distinct
error values so that theorems can tell the failure modes apart. -/
inductive MtError where
  /-- short read in `read_exact` / `read_struct` (propagated `?` error) -/
  | truncated
  /-- the `assert_eq!` checks on `magic` / `major_version` (mtserializer.rs:256-257) -/
  | badMagicOrVersion
  /-- `anyhow!("Couldn't get DTI for hash …")` (mtserializer.rs:282-284) -/
  | unknownDti (hash : Nat)
  /-- `assert!(!is_init, "TODO: handle this!")` (mtserializer.rs:287) -/
  | isInitUnsupported
  /-- `todo!("handle 0 object_num?")` (mtserializer.rs:338) -/
  | zeroObjectNum
  /-- an out-of-bounds slice index into `database_bytes` (Rust panic) -/
  | sliceOutOfBounds
  /-- the length check of `read_struct_array` (read_struct.rs:27-34) -/
  | arrayTooShort
  /-- `CStr::from_bytes_until_nul(...).expect("couldn't read prop name")` (mtserializer.rs:304-305) -/
  | propNameNoNul
  /-- `CStr::from_bytes_until_nul(&v)?` inside `read_null_terminated_string` -/
  | stringNoNul
  /-- `todo!("disabled prop")` (mtserializer.rs:232) -/
  | disabledProp
  /-- `todo!("handle prop type: …")` in either value decoder (mtserializer.rs:151,188) -/
  | unhandledPropType
  /-- the `objects[…]` index panic in `read_class` (mtserializer.rs:210) -/
  | objectIndexOob
  /-- `assert_eq!(0.0, padding)` on a vector3 trailing slot (mtserializer.rs:136) -/
  | vector3PadNonzero
  /-- `class.expect("root class shouldn't be None")` (mtserializer.rs:344) -/
  | rootClassNone
  /-- artifact of the fuel-indexed embedding of the mutual recursion -/
  | outOfFuel
  deriving DecidableEq, Repr

/-- Split off exactly `n` leading bytes; `none` when fewer are available.
This is the semantics of `Read::read_exact` into an `n`-byte buffer. -/
def takeExact : Nat → Bytes → Option (Bytes × Bytes)
  | 0, s => some ([], s)
  | _ + 1, [] => none
  | n + 1, b :: s =>
    match takeExact n s with
    | none => none
    | some (pre, rest) => some (b :: pre, rest)

/-- `read_exact` of `n` bytes: the taken bytes plus the remainder, or a
truncation error on short input. -/
def readBytesE (n : Nat) (s : Bytes) : Except MtError (Bytes × Bytes) :=
  match takeExact n s with
  | none => .error .truncated
  | some p => .ok p

/-- `util::read_struct` for an `n`-byte little-endian integer field. -/
def readLE (n : Nat) (s : Bytes) : Except MtError (Nat × Bytes) :=
  match takeExact n s with
  | none => .error .truncated
  | some (pre, rest) => .ok (leNat pre, rest)

/-- The scanning loop of `read_null_terminated_string`
(util/read_struct.rs:64-79): read one byte at a time, incrementing
`num_read_bytes` first; stop (appending a terminating 0) at a zero byte or
once the count exceeds `maxSize`; stop without a terminator at end of input.
Returns the accumulated vector `v` and the unconsumed remainder. -/
def readNTStringLoop (maxSize numRead : Nat) (acc : Bytes) : Bytes → Bytes × Bytes
  | [] => (acc, [])
  | b :: rest =>
    if b = 0 ∨ numRead + 1 > maxSize then (acc ++ [0], rest)
    else readNTStringLoop maxSize (numRead + 1) (acc ++ [b]) rest

/-- `read_null_terminated_string` (util/read_struct.rs:60-86): scan via
`readNTStringLoop`, then `CStr::from_bytes_until_nul` (error when no NUL was
pushed, i.e. end of input was hit first); the result is the byte run before
the first NUL (its SHIFT-JIS decoding is external and kept as bytes). -/
def readNullTerminatedString (maxSize : Nat) (s : Bytes) :
    Except MtError (Bytes × Bytes) :=
  let (v, rest) := readNTStringLoop maxSize 0 [] s
  if 0 ∈ v then .ok (v.takeWhile (fun b => b ≠ 0), rest)
  else .error .stringNoNul

/-- The property-bitfield unpacking done in `deserialize`
(mtserializer.rs:313-320): `raw_type = v & 0xff`, `attr = (v >> 8) & 0xff`,
`size = (v >> 16) & 0x7fff`, and `is_disabled = (v & !0x7fff_ffff) != 0` —
for a `u32`, `!0x7fff_ffff` is `0x8000_0000`, i.e. bit 31. -/
def unpackPropBitfield (v : Nat) : Nat × Nat × Nat × Bool :=
  (v &&& 0xff, (v >>> 8) &&& 0xff, (v >>> 16) &&& 0x7fff, v &&& 0x80000000 != 0)

/-- Packing the four property-bitfield fields back into their bit positions
(bits 0-7, 8-15, 16-30, 31). -/
def packPropBitfield (rawType attr size : Nat) (disabled : Bool) : Nat :=
  rawType + attr * 2 ^ 8 + size * 2 ^ 16 + (if disabled then 2 ^ 31 else 0)

/-- Property type codes (`dti::PropType`). The enum itself lives in generated
code not present in the snapshot; the variants are exactly those matched by
`read_static_prop` / `read_dynamic_prop`, plus `other` standing for every code
neither decoder handles (both fall into `todo!` on them). -/
inductive PropType where
  | class_
  | classref
  | u16
  | vector3
  | bool
  | u8
  | f32
  | s32
  | u32
  | s16
  | s8
  | string
  | custom
  | other
  deriving DecidableEq, Repr

/-- Type descriptor (`DTI`). The struct declaration is in generated code absent
from the snapshot; the fields follow build.rs's emitted
`DTI { name, hash, file_ext }`. -/
structure DTI where
  name : String
  hash : Nat
  file_ext : Option String
  deriving DecidableEq, Repr

/-- Modelled from the spec: the pieces of the `dti` module that are generated at
build time and absent from the snapshot — `DTI::from_hash` (the `DTI_MAP`
lookup of spec §4.1), the numeric `PropType::from` code mapping, and the
`PROP_ATTR_DYNAMIC` bit constant of spec §4.3 step 6. They are kept abstract
as parameters of the deserializer. -/
structure DtiModule where
  lookup : Nat → Option DTI
  propTypeFromRaw : Nat → PropType
  propAttrDynamic : Nat

/-- Decoded per-property schema entry (`PropertyInfo`, mtserializer.rs:61-70).
`name` holds the raw property-name bytes (SHIFT-JIS decoding is external). -/
structure PropertyInfo where
  name : Bytes
  prop_raw_type : Nat
  prop_attr : Nat
  prop_size : Nat
  is_dynamic : Bool
  prop_type : PropType
  is_disabled : Bool
  deriving Repr

/-- One schema record (`ObjectInfo`, mtserializer.rs:55-58). -/
structure ObjectInfo where
  dti : DTI
  props : List PropertyInfo
  deriving Repr

mutual
/-- `PropertyValue` (mtserializer.rs:81-94). Numeric payloads are raw
little-endian bit patterns (`f32` kept as its 32 bits, signed integers as
their raw unsigned bits); strings are the raw byte runs. -/
inductive PropertyValue where
  | classVal (c : Option Class)
  | u16Val (v : Nat)
  | customVal (vs : List Bytes)
  | vector3Val (x y z : Nat)
  | boolVal (b : Bool)
  | u8Val (v : Nat)
  | f32Val (v : Nat)
  | s32Val (v : Nat)
  | u32Val (v : Nat)
  | s16Val (v : Nat)
  | s8Val (v : Nat)
  | stringVal (s : Bytes)

/-- `Class` (mtserializer.rs:97-100): a decoded node. -/
inductive Class where
  | mk (class_type : DTI) (props : List (Bytes × Property))

/-- `Property` (mtserializer.rs:73): the length-prefixed value array of one
property occurrence. -/
inductive Property where
  | mk (values : List PropertyValue)
end

/-- The string list of one dynamic "custom" element (mtserializer.rs:174-176):
`num_customs` strings, each capped at 0x80 bytes. -/
def readCustomStrings : Nat → Bytes → Except MtError (List Bytes × Bytes)
  | 0, s => .ok ([], s)
  | m + 1, s => do
    let (str, s1) ← readNullTerminatedString 0x80 s
    let (rest, s2) ← readCustomStrings m s1
    pure (str :: rest, s2)

mutual
/-- `read_class` (mtserializer.rs:195-251): read the 4-byte discriminant; the
null sentinel (`(d & 0xfffe) == 0xfffe`) yields `none` with nothing further
consumed; otherwise index the schema table at `(d >> 1) & 0x7fff` (a Rust
index panic when out of range), discard the 8 unused bytes, and decode each
declared property in order. `fuel` bounds the recursion depth of the
embedding; every recursive call decrements it. -/
def readClass : Nat → List ObjectInfo → Bytes → Except MtError (Option Class × Bytes)
  | 0, _, _ => .error .outOfFuel
  | fuel + 1, objects, s => do
    let (classInfo, s1) ← readLE 4 s
    if classInfo &&& 0xfffe = 0xfffe then
      pure (none, s1)
    else
      match objects[(classInfo >>> 1) &&& 0x7fff]? with
      | none => .error .objectIndexOob
      | some objectInfo => do
        let (_unused, s2) ← readLE 8 s1
        let (props, s3) ← readProps fuel objects objectInfo.props s2
        pure (some (Class.mk objectInfo.dti props), s3)

/-- The property loop of `read_class` (mtserializer.rs:216-245): a disabled
property hits `todo!`; otherwise dispatch on `is_dynamic` and accumulate
`(name, value)` pairs in declared order. -/
def readProps : Nat → List ObjectInfo → List PropertyInfo → Bytes →
    Except MtError (List (Bytes × Property) × Bytes)
  | 0, _, _, _ => .error .outOfFuel
  | _ + 1, _, [], s => pure ([], s)
  | fuel + 1, objects, prop :: rest, s =>
    if prop.is_disabled then .error .disabledProp
    else do
      let (value, s1) ←
        if prop.is_dynamic then readDynamicProp fuel objects prop s
        else readStaticProp fuel objects prop s
      let (tail, s2) ← readProps fuel objects rest s1
      pure ((prop.name, value) :: tail, s2)

/-- `read_static_prop` (mtserializer.rs:112-156): a little-endian `u32` array
length, then that many elements. -/
def readStaticProp : Nat → List ObjectInfo → PropertyInfo → Bytes →
    Except MtError (Property × Bytes)
  | 0, _, _, _ => .error .outOfFuel
  | fuel + 1, objects, prop, s => do
    let (arrayLen, s1) ← readLE 4 s
    let (vals, s2) ← readStaticElems fuel objects prop arrayLen s1
    pure (Property.mk vals, s2)

/-- The element loop of `read_static_prop`. -/
def readStaticElems : Nat → List ObjectInfo → PropertyInfo → Nat → Bytes →
    Except MtError (List PropertyValue × Bytes)
  | 0, _, _, _, _ => .error .outOfFuel
  | _ + 1, _, _, 0, s => pure ([], s)
  | fuel + 1, objects, prop, n + 1, s => do
    let (v, s1) ← readStaticElem fuel objects prop s
    let (rest, s2) ← readStaticElems fuel objects prop n s1
    pure (v :: rest, s2)

/-- One element of the static grammar (mtserializer.rs:124-152). `class` and
`classref` recurse into `read_class` (an absent result is accepted as-is);
`vector3` reads 3 components plus a trailing padding slot that must compare
equal to `0.0` (on bit patterns: low 31 bits all zero), else the
`assert_eq!` aborts; unhandled types hit `todo!`. -/
def readStaticElem : Nat → List ObjectInfo → PropertyInfo → Bytes →
    Except MtError (PropertyValue × Bytes)
  | 0, _, _, _ => .error .outOfFuel
  | fuel + 1, objects, prop, s =>
    match prop.prop_type with
    | .class_ | .classref => do
      let (c, s1) ← readClass fuel objects s
      pure (.classVal c, s1)
    | .u16 => do
      let (v, s1) ← readLE 2 s
      pure (.u16Val v, s1)
    | .vector3 => do
      let (x, s1) ← readLE 4 s
      let (y, s2) ← readLE 4 s1
      let (z, s3) ← readLE 4 s2
      let (pad, s4) ← readLE 4 s3
      if pad &&& 0x7fffffff = 0 then pure (.vector3Val x y z, s4)
      else .error .vector3PadNonzero
    | .bool => do
      let (v, s1) ← readLE 1 s
      pure (.boolVal (v != 0), s1)
    | .u8 => do
      let (v, s1) ← readLE 1 s
      pure (.u8Val v, s1)
    | .f32 => do
      let (v, s1) ← readLE 4 s
      pure (.f32Val v, s1)
    | .s32 => do
      let (v, s1) ← readLE 4 s
      pure (.s32Val v, s1)
    | .u32 => do
      let (v, s1) ← readLE 4 s
      pure (.u32Val v, s1)
    | .s16 => do
      let (v, s1) ← readLE 2 s
      pure (.s16Val v, s1)
    | .s8 => do
      let (v, s1) ← readLE 1 s
      pure (.s8Val v, s1)
    | .string => do
      let (str, s1) ← readNullTerminatedString 0x200 s
      pure (.stringVal str, s1)
    | _ => .error .unhandledPropType

/-- `read_dynamic_prop` (mtserializer.rs:159-193): same length-prefix
convention as the static grammar, disjoint element shapes. -/
def readDynamicProp : Nat → List ObjectInfo → PropertyInfo → Bytes →
    Except MtError (Property × Bytes)
  | 0, _, _, _ => .error .outOfFuel
  | fuel + 1, objects, prop, s => do
    let (arrayLen, s1) ← readLE 4 s
    let (vals, s2) ← readDynElems fuel objects prop arrayLen s1
    pure (Property.mk vals, s2)

/-- The element loop of `read_dynamic_prop`. -/
def readDynElems : Nat → List ObjectInfo → PropertyInfo → Nat → Bytes →
    Except MtError (List PropertyValue × Bytes)
  | 0, _, _, _, _ => .error .outOfFuel
  | _ + 1, _, _, 0, s => pure ([], s)
  | fuel + 1, objects, prop, n + 1, s => do
    let (v, s1) ← readDynamicElem fuel objects prop s
    let (rest, s2) ← readDynElems fuel objects prop n s1
    pure (v :: rest, s2)

/-- One element of the dynamic grammar (mtserializer.rs:171-189): `custom`
reads a `u8` count then that many capped strings; `classref` recurses into
`read_class` and wraps the result directly — `PropertyValue::Class(read_class(..)?)`
accepts an absent (`None`) nested node; unhandled types hit `todo!`. -/
def readDynamicElem : Nat → List ObjectInfo → PropertyInfo → Bytes →
    Except MtError (PropertyValue × Bytes)
  | 0, _, _, _ => .error .outOfFuel
  | fuel + 1, objects, prop, s =>
    match prop.prop_type with
    | .custom => do
      let (numCustoms, s1) ← readLE 1 s
      let (vals, s2) ← readCustomStrings numCustoms s1
      pure (.customVal vals, s2)
    | .bool => do
      let (v, s1) ← readLE 1 s
      pure (.boolVal (v != 0), s1)
    | .classref => do
      let (c, s1) ← readClass fuel objects s
      pure (.classVal c, s1)
    | .s16 => do
      let (v, s1) ← readLE 2 s
      pure (.s16Val v, s1)
    | .s32 => do
      let (v, s1) ← readLE 4 s
      pure (.s32Val v, s1)
    | .u32 => do
      let (v, s1) ← readLE 4 s
      pure (.u32Val v, s1)
    | _ => .error .unhandledPropType
end

/-- The 24-byte `Header` (mtserializer.rs:18-28), all fields little-endian. -/
structure MtHeader where
  magic : Nat
  major_version : Nat
  minor_version : Nat
  max_object_id : Nat
  reserved : Nat
  object_num : Nat
  database_size : Nat
  deriving Repr

/-- Overlay the 24 header bytes as `Header` fields (zerocopy `FromBytes`). -/
def parseHeader (b : Bytes) : MtHeader where
  magic := leNat (b.take 4)
  major_version := leNat ((b.drop 4).take 2)
  minor_version := leNat ((b.drop 6).take 2)
  max_object_id := leNat ((b.drop 8).take 4)
  reserved := leNat ((b.drop 12).take 4)
  object_num := leNat ((b.drop 16).take 4)
  database_size := leNat ((b.drop 20).take 4)

/-- Decode one 48-byte `RawPropertyInfo` record (mtserializer.rs:301-330):
`name` is a `u64` byte offset into the database blob (slicing past the blob
is a Rust panic; a missing NUL terminator makes the
`CStr::from_bytes_until_nul` `expect` abort); the `u32` bitfield at offset 8
is unpacked by `unpackPropBitfield`. -/
def parsePropRecord (dm : DtiModule) (db : Bytes) (rec : Bytes) :
    Except MtError PropertyInfo :=
  let nameOff := leNat (rec.take 8)
  let bitfield := leNat ((rec.drop 8).take 4)
  if nameOff > db.length then .error .sliceOutOfBounds
  else
    let nameRegion := db.drop nameOff
    if 0 ∈ nameRegion then
      let u := unpackPropBitfield bitfield
      .ok
        { name := nameRegion.takeWhile (fun b => b ≠ 0)
          prop_raw_type := u.1
          prop_attr := u.2.1
          prop_size := u.2.2.1
          is_dynamic := u.2.1 &&& dm.propAttrDynamic != 0
          prop_type := dm.propTypeFromRaw u.1
          is_disabled := u.2.2.2 }
    else .error .propNameNoNul

/-- The `num` 48-byte record slices produced by
`read_struct_array::<RawPropertyInfo>` once its length check passed. -/
def propRecordsList (bytes : Bytes) (num : Nat) : List Bytes :=
  (List.range num).map (fun i => (bytes.drop (i * 48)).take 48)

/-- Build one schema record from a pointer-table entry
(mtserializer.rs:275-334): slice the blob at `objectPtr` (a Rust panic past
the end, and again if fewer than 16 bytes remain for the `RawObjectInfo`
overlay), resolve the type hash in the registry, reject `is_init`, then
overlay and decode `num_props` property records. -/
def buildObject (dm : DtiModule) (db : Bytes) (objectPtr : Nat) :
    Except MtError ObjectInfo :=
  if objectPtr > db.length then .error .sliceOutOfBounds
  else
    let objectBytes := db.drop objectPtr
    if objectBytes.length < 16 then .error .sliceOutOfBounds
    else
      let dtiHash := leNat (objectBytes.take 4)
      let bitfield := leNat ((objectBytes.drop 8).take 4)
      match dm.lookup dtiHash with
      | none => .error (.unknownDti dtiHash)
      | some dti =>
        let numProps := bitfield &&& 0x7fff
        if bitfield &&& 0x8000 != 0 then .error .isInitUnsupported
        else
          let recBytes := objectBytes.drop 16
          if recBytes.length < numProps * 48 then .error .arrayTooShort
          else do
            let props ← (propRecordsList recBytes numProps).mapM (parsePropRecord dm db)
            pure { dti := dti, props := props }

/-- Resolve pointer-table entries `idx, idx+1, …` (`n` of them): each entry is
the 8 little-endian bytes at `idx*8` (slicing past the blob is a Rust
panic), fed to `buildObject` (mtserializer.rs:265-336). -/
def buildObjectsFrom (dm : DtiModule) (db : Bytes) : Nat → Nat →
    Except MtError (List ObjectInfo)
  | _, 0 => .ok []
  | idx, n + 1 =>
    if (idx + 1) * 8 > db.length then .error .sliceOutOfBounds
    else do
      let obj ← buildObject dm db (leNat ((db.drop (idx * 8)).take 8))
      let rest ← buildObjectsFrom dm db (idx + 1) n
      pure (obj :: rest)

/-- `deserialize` (mtserializer.rs:253-345): read the header and gate on
magic/version (`assert_eq!` aborts), read the `database_size`-byte blob,
reject `object_num == 0` (`todo!`), build the schema table, then read the
root class, which must not be absent. Parametrized by the modelled `dti`
module and the recursion fuel of the embedding; returns the root class and
the unconsumed remainder of the input. -/
def mtDeserialize (dm : DtiModule) (fuel : Nat) (input : Bytes) :
    Except MtError (Class × Bytes) := do
  let (hdrBytes, s1) ← readBytesE 24 input
  let header := parseHeader hdrBytes
  if header.magic ≠ 0x00534658 ∨ header.major_version ≠ 16 then
    .error .badMagicOrVersion
  else do
    let (db, s2) ← readBytesE header.database_size s1
    if header.object_num = 0 then .error .zeroObjectNum
    else do
      let objects ← buildObjectsFrom dm db 0 header.object_num
      let (rootOpt, s3) ← readClass fuel objects s2
      match rootOpt with
      | none => .error .rootClassNone
      | some c => pure (c, s3)

/-- The 2 little-endian bytes of a value `v < 2^16`. -/
def leBytes16 (v : Nat) : Bytes := [v % 256, v / 2 ^ 8 % 256]

/-- A 24-byte header with `magic = "XFS\0"`, `major_version = 16` and the
given remaining fields. -/
def mkHdr (minor maxId res objNum dbSize : Nat) : Bytes :=
  [0x58, 0x46, 0x53, 0x00] ++ [16, 0] ++ leBytes16 minor ++ leBytes32 maxId ++
    leBytes32 res ++ leBytes32 objNum ++ leBytes32 dbSize

/-- Header of the minimal document of spec §8.7: `magic="XFS\0"`, `major=16`,
`minor=0`, `max_object_id=0`, `reserved=0`, `object_num=1`,
`database_size=24`. -/
def minimalHdr : Bytes :=
  [0x58, 0x46, 0x53, 0x00, 16, 0, 0, 0, 0, 0, 0, 0, 0, 0, 0, 0, 1, 0, 0, 0, 24, 0, 0, 0]

/-- Database blob of the minimal document: the 8-byte pointer `0x08`, then the
16-byte schema header `{type_hash = h, pad = 0, bitfield = 0, pad = 0}`. -/
def minimalBlob (h : Nat) : Bytes :=
  [8, 0, 0, 0, 0, 0, 0, 0] ++ leBytes32 h ++ [0, 0, 0, 0, 0, 0, 0, 0, 0, 0, 0, 0]

/-- Instance stream of the minimal document: discriminant `0x00000000` plus the
8 reserved bytes. -/
def minimalInst : Bytes := [0, 0, 0, 0] ++ [0, 0, 0, 0, 0, 0, 0, 0]

/-- The full 60-byte minimal document of spec §8.7 for type hash `h`. -/
def minimalDoc (h : Nat) : Bytes := minimalHdr ++ minimalBlob h ++ minimalInst

/-- Database blob whose single pointer-table entry is `0` — it aliases the
pointer table itself (`0 < object_num * 8`). The schema header overlaid at
offset 0 then reads `type_hash = 0` (the pointer bytes) and `bitfield = 0`. -/
def aliasBlob : Bytes :=
  [0, 0, 0, 0, 0, 0, 0, 0] ++ [0, 0, 0, 0, 0, 0, 0, 0, 0, 0, 0, 0, 0, 0, 0, 0]

/-- A document whose object pointer aliases the pointer table (`p = 0 < 8`). -/
def aliasDoc : Bytes := minimalHdr ++ aliasBlob ++ minimalInst

/-- The descriptor attested by the repository's own test
(`dti.rs`, `test_from_hash`): `bitset_prop<32>` with hash `0x5d5af4f2`. -/
def dtiB : DTI := ⟨"bitset_prop<32>", 0x5d5af4f2, none⟩

/-- A one-entry registry module for concrete instantiations. -/
def dmB : DtiModule :=
  ⟨fun h => if h = 0x5d5af4f2 then some dtiB else none, fun _ => .other, 0x8000⟩

/-- A descriptor registered at hash 0, exercising the aliased-pointer document
(the registry contents are a parameter of the decoder). -/
def dtiZ : DTI := ⟨"t0", 0, none⟩

/-- Registry module with the single entry `0 ↦ dtiZ`. -/
def dmZ : DtiModule := ⟨fun h => if h = 0 then some dtiZ else none, fun _ => .other, 0x8000⟩

/-- An empty registry module. -/
def dmNone : DtiModule := ⟨fun _ => none, fun _ => .other, 0⟩

/-- A dynamic property of decoded type `classref`. -/
def propClassrefDyn : PropertyInfo :=
  { name := [], prop_raw_type := 0, prop_attr := 0, prop_size := 0,
    is_dynamic := true, prop_type := .classref, is_disabled := false }

/-- A static property of decoded type `vector3`. -/
def propVec3 : PropertyInfo :=
  { name := [], prop_raw_type := 0, prop_attr := 0, prop_size := 0,
    is_dynamic := false, prop_type := .vector3, is_disabled := false }

/-- Modelled from the spec: the `crc32` implementation (`crate::crc32`) is not
under `src/`; per spec §3 it is the reflected CRC-32 (polynomial
`0xEDB88320`) with a caller-supplied seed and no final inversion, which
reproduces the repository's own test vector
(`bitset_prop<32> ↦ 0x5d5af4f2`, `dti.rs` `test_from_hash`).
One byte's 8 shift/xor rounds. -/
def crc32Round (crc : Nat) : Nat → Nat
  | 0 => crc
  | k + 1 =>
    crc32Round (if crc &&& 1 = 1 then (crc >>> 1) ^^^ 0xEDB88320 else crc >>> 1) k

/-- Modelled from the spec: `crc32(data, seed)` — xor each byte into the low
bits, then 8 shift/xor rounds per byte. -/
def crc32 (data : List Nat) (seed : Nat) : Nat :=
  data.foldl (fun crc b => crc32Round (crc ^^^ b) 8) seed

/-- The byte run of a (pure-ASCII) descriptor name. -/
def nameBytes (s : String) : List Nat := s.toList.map Char.toNat

/-- Modelled from the spec: the contents of the generated `DTI_MAP` (built at
compile time from `src/dti.txt`, absent from the snapshot). It carries the
one entry attested inside the snapshot by the unit test `test_from_hash`
in `dti.rs`. -/
def modelRegistryEntries : List DTI := [dtiB]

theorem leNat_leBytes32 (v : Nat) (h : v < 2 ^ 32) : leNat (leBytes32 v) = v := by
  simp only [leBytes32, leNat]
  omega

theorem takeExact_eq (n : Nat) : ∀ s : Bytes,
    takeExact n s = if n ≤ s.length then some (s.take n, s.drop n) else none := by
  induction n with
  | zero => intro s; simp [takeExact]
  | succ n ih =>
    intro s
    cases s with
    | nil => simp [takeExact]
    | cons b rest =>
      by_cases h : n ≤ rest.length
      · simp [takeExact, ih rest, h, Nat.succ_le_succ h]
      · have : ¬ (n + 1 ≤ rest.length + 1) := by omega
        simp [takeExact, ih rest, h, this]

theorem readLE_eq (n : Nat) (s : Bytes) :
    readLE n s =
      if n ≤ s.length then .ok (leNat (s.take n), s.drop n) else .error .truncated := by
  unfold readLE
  rw [takeExact_eq]
  by_cases h : n ≤ s.length <;> simp [h]

theorem readBytesE_eq (n : Nat) (s : Bytes) :
    readBytesE n s =
      if n ≤ s.length then .ok (s.take n, s.drop n) else .error .truncated := by
  unfold readBytesE
  rw [takeExact_eq]
  by_cases h : n ≤ s.length <;> simp [h]

/-- Consumption bound for the string-scanning loop, generalized over the
running count: from count `numRead` the loop reads at most
`maxSize - numRead + 1` further bytes. -/
theorem readNTStringLoop_consumption (maxSize : Nat) :
    ∀ (s : Bytes) (numRead : Nat) (acc : Bytes), numRead ≤ maxSize →
      s.length ≤ (readNTStringLoop maxSize numRead acc s).2.length +
        (maxSize - numRead) + 1 := by
  intro s
  induction s with
  | nil => intro numRead acc _; simp [readNTStringLoop]
  | cons b rest ih =>
    intro numRead acc hle
    by_cases hstop : b = 0 ∨ numRead + 1 > maxSize
    · simp only [readNTStringLoop, if_pos hstop, List.length_cons]
      omega
    · have hcnt : numRead + 1 ≤ maxSize := by
        rcases Nat.lt_or_ge maxSize (numRead + 1) with h | h
        · exact absurd (Or.inr h) hstop
        · exact h
      have := ih (numRead + 1) (acc ++ [b]) hcnt
      simp only [readNTStringLoop, if_neg hstop, List.length_cons]
      omega

theorem bindOk {α β : Type} (a : α) (f : α → Except MtError β) :
    (Except.ok a : Except MtError α) >>= f = f a := rfl

theorem drop_add (s : Bytes) (a b : Nat) : (s.drop a).drop b = s.drop (a + b) := by
  rw [List.drop_drop, Nat.add_comm]

theorem readBytesE_append (n : Nat) (l rest : Bytes) (hl : l.length = n) :
    readBytesE n (l ++ rest) = .ok (l, rest) := by
  subst hl
  rw [readBytesE_eq, if_pos (by simp), List.take_left, List.drop_left]

/-- The null-sentinel path of `read_class`: a discriminant with low bits
`0xfffe` yields `none` and only the 4 discriminant bytes are consumed. -/
theorem readClass_sentinel (fuel : Nat) (objects : List ObjectInfo) (s : Bytes)
    (h4 : 4 ≤ s.length) (hs : leNat (s.take 4) &&& 0xfffe = 0xfffe) :
    readClass (fuel + 1) objects s = .ok (none, s.drop 4) := by
  unfold readClass
  rw [readLE_eq, if_pos h4, bindOk]
  dsimp only
  rw [if_pos hs]
  rfl

/-- The non-sentinel path of `read_class`: the schema at index
`(d >>> 1) &&& 0x7fff` is decoded after the 4 discriminant bytes and the 8
unused bytes have been consumed. -/
theorem readClass_nonsentinel (fuel : Nat) (objects : List ObjectInfo) (s : Bytes)
    (obj : ObjectInfo) (h12 : 12 ≤ s.length)
    (hns : leNat (s.take 4) &&& 0xfffe ≠ 0xfffe)
    (hidx : objects[(leNat (s.take 4) >>> 1) &&& 0x7fff]? = some obj) :
    readClass (fuel + 1) objects s =
      Except.map (fun pr => (some (Class.mk obj.dti pr.1), pr.2))
        (readProps fuel objects obj.props (s.drop 12)) := by
  unfold readClass
  rw [readLE_eq, if_pos (by omega), bindOk]
  dsimp only
  rw [if_neg hns, hidx]
  dsimp only
  rw [readLE_eq, if_pos (by rw [List.length_drop]; omega), bindOk]
  dsimp only
  rw [drop_add s 4 8]
  cases readProps fuel objects obj.props (s.drop 12) with
  | error e => rfl
  | ok pr => rfl

set_option maxHeartbeats 1600000 in
/-- The schema record of the minimal document: registered hash, no
properties. -/
theorem buildObject_minimal (dm : DtiModule) (h : Nat) (dti : DTI)
    (hreg : dm.lookup h = some dti) (hh : h < 2 ^ 32) :
    buildObject dm (minimalBlob h) 8 = .ok ⟨dti, []⟩ := by
  have hl : dm.lookup (leNat (leBytes32 h)) = some dti := by
    rw [leNat_leBytes32 h hh]; exact hreg
  unfold buildObject
  rw [if_neg (by norm_num [minimalBlob, leBytes32])]
  dsimp only
  rw [if_neg (by norm_num [minimalBlob, leBytes32])]
  rw [show leNat (List.take 4 (List.drop 8 (minimalBlob h))) = leNat (leBytes32 h) from rfl]
  rw [hl]
  rw [show leNat (List.take 4 (List.drop 8 (List.drop 8 (minimalBlob h)))) = 0 from rfl]
  rfl

set_option maxHeartbeats 1600000 in
/-- The one-entry schema table of the minimal document. -/
theorem buildObjectsFrom_minimal (dm : DtiModule) (h : Nat) (dti : DTI)
    (hreg : dm.lookup h = some dti) (hh : h < 2 ^ 32) :
    buildObjectsFrom dm (minimalBlob h) 0 1 = .ok [⟨dti, []⟩] := by
  unfold buildObjectsFrom
  rw [if_neg (by norm_num [minimalBlob, leBytes32])]
  rw [show leNat (((minimalBlob h).drop (0 * 8)).take 8) = 8 from rfl]
  rw [buildObject_minimal dm h dti hreg hh, bindOk]
  rfl

set_option maxHeartbeats 1600000 in
/-- C1: deserializing the minimal 60-byte document of spec §8.7 — 24-byte
header `{magic="XFS\0", major=16, minor=0, max_object_id=0, reserved=0,
object_num=1, database_size=24}`, a 24-byte blob made of the pointer `0x08`
and a schema header `{type_hash=h, pad=0, bitfield=0, pad=0}` for a
registered hash `h`, and an instance stream of discriminant `0x00000000`
plus 8 reserved bytes — returns the node with type `lookup h` and an empty
property list, consuming exactly the 60 document bytes (any `extra` suffix
is left unconsumed). -/
theorem minimal_document_deserialize (dm : DtiModule) (fuel h : Nat) (dti : DTI)
    (extra : Bytes) (hreg : dm.lookup h = some dti) (hh : h < 2 ^ 32) :
    mtDeserialize dm (fuel + 2) (minimalDoc h ++ extra) = .ok (Class.mk dti [], extra) := by
  have hassoc : minimalDoc h ++ extra = minimalHdr ++ (minimalBlob h ++ (minimalInst ++ extra)) := by
    simp [minimalDoc, List.append_assoc]
  rw [hassoc]
  unfold mtDeserialize
  rw [show readBytesE 24 (minimalHdr ++ (minimalBlob h ++ (minimalInst ++ extra))) =
      .ok (minimalHdr, minimalBlob h ++ (minimalInst ++ extra)) from rfl, bindOk]
  dsimp only
  rw [if_neg (by decide)]
  rw [show readBytesE (parseHeader minimalHdr).database_size (minimalBlob h ++ (minimalInst ++ extra)) =
      .ok (minimalBlob h, minimalInst ++ extra) from rfl, bindOk]
  dsimp only
  rw [if_neg (by decide)]
  rw [show (parseHeader minimalHdr).object_num = 1 from rfl]
  rw [buildObjectsFrom_minimal dm h dti hreg hh, bindOk]
  rw [show readClass (fuel + 2) [⟨dti, []⟩] (minimalInst ++ extra) =
      .ok (some (Class.mk dti []), extra) from rfl, bindOk]
  rfl

/-- Witness for C1: the minimal document at the attested hash `0x5d5af4f2`
with a 2-byte trailer, decoded against the one-entry registry. -/
theorem minimal_document_deserialize_witness :
    mtDeserialize dmB 2 (minimalDoc 0x5d5af4f2 ++ [9, 9]) = .ok (Class.mk dtiB [], [9, 9]) :=
  minimal_document_deserialize dmB 0 0x5d5af4f2 dtiB [9, 9] (by decide) (by decide)

/-- C6: unpacking `(raw_type, attr, size, disabled)` from a `u32` property
bitfield as `deserialize` does and re-packing the four fields into bit
positions 0-7, 8-15, 16-30 and 31 reproduces the value exactly. -/
theorem prop_bitfield_roundtrip (v : Nat) (h : v < 2 ^ 32) :
    packPropBitfield (unpackPropBitfield v).1 (unpackPropBitfield v).2.1
      (unpackPropBitfield v).2.2.1 (unpackPropBitfield v).2.2.2 = v := by
  have mask8 : ∀ x : Nat, x &&& 255 = x % 256 := fun x => by
    have hx := Nat.and_pow_two_sub_one_eq_mod x 8
    norm_num at hx
    exact hx
  have mask15 : ∀ x : Nat, x &&& 32767 = x % 32768 := fun x => by
    have hx := Nat.and_pow_two_sub_one_eq_mod x 15
    norm_num at hx
    exact hx
  have h4 : v &&& 0x80000000 = (v.testBit 31).toNat * 2 ^ 31 := by
    have h4x := Nat.and_two_pow v 31
    norm_num at h4x ⊢
    exact h4x
  simp only [unpackPropBitfield, packPropBitfield, Nat.shiftRight_eq_div_pow, mask8, mask15, h4]
  rw [Nat.testBit_to_div_mod]
  by_cases hd : v / 2 ^ 31 % 2 = 1
  · simp only [hd]
    norm_num
    omega
  · simp only [hd]
    norm_num
    omega

/-- Witness for C6 at `v = 0x9234abcd` (all four fields nonzero,
disabled bit set). -/
theorem prop_bitfield_roundtrip_witness :
    (0x9234abcd : Nat) < 2 ^ 32 ∧
      packPropBitfield (unpackPropBitfield 0x9234abcd).1 (unpackPropBitfield 0x9234abcd).2.1
        (unpackPropBitfield 0x9234abcd).2.2.1 (unpackPropBitfield 0x9234abcd).2.2.2 =
        0x9234abcd :=
  ⟨by decide, prop_bitfield_roundtrip 0x9234abcd (by decide)⟩

/-- C9: the capped null-terminated string reader terminates and consumes at
most `max_size + 1` bytes: the scanning loop's remainder is at most
`maxSize + 1` bytes shorter than the input, and the same bound holds for
the remainder of a successful `readNullTerminatedString`. -/
theorem ntstring_consumption (maxSize : Nat) (s : Bytes) :
    s.length ≤ (readNTStringLoop maxSize 0 [] s).2.length + maxSize + 1 ∧
    ∀ out rest, readNullTerminatedString maxSize s = .ok (out, rest) →
      s.length ≤ rest.length + maxSize + 1 := by
  have hloop := readNTStringLoop_consumption maxSize s 0 [] (Nat.zero_le _)
  constructor
  · omega
  · intro out rest hok
    unfold readNullTerminatedString at hok
    rcases hp : readNTStringLoop maxSize 0 [] s with ⟨v, r⟩
    rw [hp] at hok hloop
    dsimp only at hok hloop
    by_cases hv : 0 ∈ v
    · rw [if_pos hv] at hok
      injection hok with hpair
      injection hpair with hout hrest
      subst hrest
      omega
    · rw [if_neg hv] at hok
      exact absurd hok (by simp)

/-- Witness for C9: the reader stops at the NUL in `[5, 0]` under cap 3,
leaving an empty remainder within the bound. -/
theorem ntstring_consumption_witness :
    ([5, 0] : Bytes).length ≤ (readNTStringLoop 3 0 [] [5, 0]).2.length + 3 + 1 ∧
      ([5, 0] : Bytes).length ≤ ([] : Bytes).length + 3 + 1 :=
  ⟨(ntstring_consumption 3 [5, 0]).1, (ntstring_consumption 3 [5, 0]).2 [5] [] rfl⟩

/-- C2: for every stream and schema table, a discriminant whose bits 1-15 are
all set (`(d &&& 0xfffe) = 0xfffe`) makes `read_class` return the absent
node consuming exactly 4 bytes (never the 8 reserved bytes); any other
discriminant consumes the 8 reserved bytes as well and decodes the schema
at index `(d >>> 1) &&& 0x7fff`. -/
theorem read_class_discriminant (fuel : Nat) (objects : List ObjectInfo) (s : Bytes) :
    (4 ≤ s.length → leNat (s.take 4) &&& 0xfffe = 0xfffe →
      readClass (fuel + 1) objects s = .ok (none, s.drop 4)) ∧
    (∀ obj, 12 ≤ s.length → leNat (s.take 4) &&& 0xfffe ≠ 0xfffe →
      objects[(leNat (s.take 4) >>> 1) &&& 0x7fff]? = some obj →
      readClass (fuel + 1) objects s =
        Except.map (fun pr => (some (Class.mk obj.dti pr.1), pr.2))
          (readProps fuel objects obj.props (s.drop 12))) :=
  ⟨fun h4 hs => readClass_sentinel fuel objects s h4 hs,
   fun obj h12 hns hidx => readClass_nonsentinel fuel objects s obj h12 hns hidx⟩

/-- Witness for C2: the sentinel `0x0000fffe` yields `none` with nothing
further consumed; discriminant 0 over the one-entry table decodes schema
0 after the 8 reserved bytes. -/
theorem read_class_discriminant_witness :
    readClass 1 [] [0xfe, 0xff, 0, 0] = .ok (none, []) ∧
    readClass 2 [⟨dtiB, []⟩] [0, 0, 0, 0, 0, 0, 0, 0, 0, 0, 0, 0] =
      .ok (some (Class.mk dtiB []), []) :=
  ⟨(read_class_discriminant 0 [] [0xfe, 0xff, 0, 0]).1 (by decide) (by decide),
   ((read_class_discriminant 1 [⟨dtiB, []⟩] [0, 0, 0, 0, 0, 0, 0, 0, 0, 0, 0, 0]).2
     ⟨dtiB, []⟩ (by decide) (by decide) rfl).trans (by rfl)⟩

/-- C3 counterexample: `aliasDoc` has its single object pointer `p = 0`, which
is `< object_num * 8 = 8` (it aliases the pointer table), yet `deserialize`
does not fail — no `CorruptPointerTable` check exists in the code — and
instead succeeds, reading the schema header out of the pointer-table
bytes. -/
theorem pointer_alias_counterexample :
    leNat (aliasBlob.take 8) < 1 * 8 ∧
      mtDeserialize dmZ 2 aliasDoc = .ok (Class.mk dtiZ [], []) :=
  ⟨by decide, rfl⟩

/-- C3 (amended): the code never validates object pointers against
`object_num * 8`; an aliasing pointer is used as an ordinary blob offset,
so the document whose pointer is 0 decodes successfully and its node type
is the registry entry for the hash read at offset `p = 0` — i.e. from
inside the pointer table itself. Out-of-range pointers panic (out-of-bounds
slice), so no `CorruptPointerTable` error is ever produced. -/
theorem pointer_alias_no_check :
    mtDeserialize dmZ 2 aliasDoc = .ok (Class.mk dtiZ [], []) ∧
      dtiZ.hash = leNat ((aliasBlob.drop (leNat (aliasBlob.take 8))).take 4) :=
  ⟨rfl, by decide⟩

/-- C4 counterexample: a dynamic `classref` property whose single element is
the null sentinel decodes *successfully* to the explicit absent nested
node `Class(None)` — `read_dynamic_prop` wraps `read_class`'s result
directly and does not treat `None` as a format violation. -/
theorem dynamic_classref_none_counterexample :
    readDynamicProp 9 [] propClassrefDyn [1, 0, 0, 0, 0xfe, 0xff, 0, 0] =
      .ok (Property.mk [.classVal none], []) := rfl

/-- C4 (amended): for every dynamic property of decoded type `classref`, an
element whose recursive `read_class` hits the null sentinel decodes
successfully to the absent nested-node value `Class(None)`; the decoder
does not fail on it. -/
theorem dynamic_classref_accepts_none (fuel : Nat) (objects : List ObjectInfo)
    (prop : PropertyInfo) (s : Bytes) (hty : prop.prop_type = .classref)
    (h4 : 4 ≤ s.length) (hsent : leNat (s.take 4) &&& 0xfffe = 0xfffe) :
    readDynamicElem (fuel + 2) objects prop s = .ok (.classVal none, s.drop 4) := by
  unfold readDynamicElem
  rw [hty]
  dsimp only
  rw [readClass_sentinel fuel objects s h4 hsent, bindOk]
  rfl

/-- Witness for C4 (amended) at the sentinel discriminant `0x0000fffe`. -/
theorem dynamic_classref_accepts_none_witness :
    readDynamicElem 2 [] propClassrefDyn [0xfe, 0xff, 0, 0] = .ok (.classVal none, []) :=
  dynamic_classref_accepts_none 0 [] propClassrefDyn [0xfe, 0xff, 0, 0] rfl (by decide) (by decide)

/-- C5: any input whose first 4 bytes are not `"XFS\0"` or whose
`major_version` field is not 16 fails with the magic/version gate error,
independently of everything after the 24 header bytes (the database blob
is never read). -/
theorem magic_version_gate (dm : DtiModule) (fuel : Nat) (hdr rest : Bytes)
    (hlen : hdr.length = 24)
    (hbad : leNat (hdr.take 4) ≠ 0x534658 ∨ leNat ((hdr.drop 4).take 2) ≠ 16) :
    mtDeserialize dm fuel (hdr ++ rest) = .error .badMagicOrVersion := by
  unfold mtDeserialize
  rw [readBytesE_append 24 hdr rest hlen, bindOk]
  dsimp only
  rw [show (parseHeader hdr).magic = leNat (hdr.take 4) from rfl,
    show (parseHeader hdr).major_version = leNat ((hdr.drop 4).take 2) from rfl]
  rw [if_pos hbad]

/-- Witness for C5: an all-zero header fails the gate regardless of the
remaining byte. -/
theorem magic_version_gate_witness :
    mtDeserialize dmNone 3
        ([0, 0, 0, 0, 0, 0, 0, 0, 0, 0, 0, 0, 0, 0, 0, 0, 0, 0, 0, 0, 0, 0, 0, 0] ++ [7]) =
      .error .badMagicOrVersion :=
  magic_version_gate dmNone 3 _ [7] (by decide) (Or.inl (by decide))

/-- C7: a static `vector3` element reads 3 little-endian f32 components plus
one trailing f32 padding slot (16 bytes in all); a trailing pattern that
does not compare equal to `0.0` (low 31 bits nonzero) makes the decode
fail rather than being silently accepted. -/
theorem vector3_padding_check (fuel : Nat) (objects : List ObjectInfo)
    (prop : PropertyInfo) (s : Bytes) (hty : prop.prop_type = .vector3)
    (h16 : 16 ≤ s.length) :
    readStaticElem (fuel + 1) objects prop s =
      if leNat ((s.drop 12).take 4) &&& 0x7fffffff = 0 then
        .ok (.vector3Val (leNat (s.take 4)) (leNat ((s.drop 4).take 4))
          (leNat ((s.drop 8).take 4)), s.drop 16)
      else .error .vector3PadNonzero := by
  unfold readStaticElem
  rw [hty]
  dsimp only
  rw [readLE_eq, if_pos (by omega), bindOk]
  dsimp only
  rw [readLE_eq, if_pos (by rw [List.length_drop]; omega), bindOk]
  dsimp only
  rw [drop_add s 4 4]
  rw [readLE_eq, if_pos (by rw [List.length_drop]; omega), bindOk]
  dsimp only
  rw [drop_add s 8 4]
  rw [readLE_eq, if_pos (by rw [List.length_drop]; omega), bindOk]
  dsimp only
  rw [drop_add s 12 4]
  rfl

/-- Witness for C7: a trailing pattern `0x01000000` (nonzero, not `±0.0`)
aborts the vector3 decode. -/
theorem vector3_padding_check_witness :
    readStaticElem 1 [] propVec3 [0, 0, 0, 0, 0, 0, 0, 0, 0, 0, 0, 0, 0, 0, 0, 1] =
      .error .vector3PadNonzero :=
  (vector3_padding_check 0 [] propVec3 _ rfl (by decide)).trans (by rfl)

set_option maxRecDepth 10000 in
/-- C8: for every entry of the (modelled) type registry, the CRC-32 of the
descriptor's name bytes with seed `0xffffffff`, masked with `0x7fffffff`,
equals the entry's hash. -/
theorem dti_hash_law (d : DTI) (hd : d ∈ modelRegistryEntries) :
    crc32 (nameBytes d.name) 0xffffffff &&& 0x7fffffff = d.hash := by
  simp only [modelRegistryEntries, List.mem_singleton] at hd
  subst hd
  decide

set_option maxRecDepth 10000 in
/-- Witness for C8 at the attested entry `bitset_prop<32> ↦ 0x5d5af4f2`. -/
theorem dti_hash_law_witness :
    crc32 (nameBytes "bitset_prop<32>") 0xffffffff &&& 0x7fffffff = 0x5d5af4f2 :=
  dti_hash_law dtiB (by decide)

/-- C10: a document whose header passes the magic/version gate but declares
`object_num = 0` is rejected via the unimplemented-case abort after the
blob is read, before any instance data is consumed, no matter what follows
the blob. -/
theorem zero_object_num_rejected (dm : DtiModule) (fuel minor maxId res dbSize : Nat)
    (blob rest : Bytes) (hdb : dbSize < 2 ^ 32) (hblob : blob.length = dbSize) :
    mtDeserialize dm fuel (mkHdr minor maxId res 0 dbSize ++ (blob ++ rest)) =
      .error .zeroObjectNum := by
  unfold mtDeserialize
  rw [readBytesE_append 24 (mkHdr minor maxId res 0 dbSize) (blob ++ rest)
    (by simp [mkHdr, leBytes16, leBytes32]), bindOk]
  dsimp only
  have hm : (parseHeader (mkHdr minor maxId res 0 dbSize)).magic = 0x534658 := by
    rw [show (parseHeader (mkHdr minor maxId res 0 dbSize)).magic =
        leNat (List.take 4 (mkHdr minor maxId res 0 dbSize)) from rfl,
      show List.take 4 (mkHdr minor maxId res 0 dbSize) = [0x58, 0x46, 0x53, 0x00] from rfl]
    rfl
  have hv : (parseHeader (mkHdr minor maxId res 0 dbSize)).major_version = 16 := by
    rw [show (parseHeader (mkHdr minor maxId res 0 dbSize)).major_version =
        leNat (List.take 2 (List.drop 4 (mkHdr minor maxId res 0 dbSize))) from rfl,
      show List.take 2 (List.drop 4 (mkHdr minor maxId res 0 dbSize)) = [16, 0] from rfl]
    rfl
  have hgate : ¬((parseHeader (mkHdr minor maxId res 0 dbSize)).magic ≠ 0x534658 ∨
      (parseHeader (mkHdr minor maxId res 0 dbSize)).major_version ≠ 16) := by
    rintro (hA | hB)
    · exact hA hm
    · exact hB hv
  rw [if_neg hgate]
  rw [show (parseHeader (mkHdr minor maxId res 0 dbSize)).database_size =
      leNat (List.take 4 (List.drop 20 (mkHdr minor maxId res 0 dbSize))) from rfl,
    show List.take 4 (List.drop 20 (mkHdr minor maxId res 0 dbSize)) = leBytes32 dbSize from rfl]
  rw [leNat_leBytes32 dbSize hdb]
  rw [readBytesE_append dbSize blob rest hblob, bindOk]
  dsimp only
  have ho : (parseHeader (mkHdr minor maxId res 0 dbSize)).object_num = 0 := by
    rw [show (parseHeader (mkHdr minor maxId res 0 dbSize)).object_num =
        leNat (List.take 4 (List.drop 16 (mkHdr minor maxId res 0 dbSize))) from rfl,
      show List.take 4 (List.drop 16 (mkHdr minor maxId res 0 dbSize)) = leBytes32 0 from rfl]
    rfl
  rw [if_pos ho]

/-- Witness for C10: the empty-blob zero-object document aborts with the
unimplemented-case error. -/
theorem zero_object_num_rejected_witness :
    mtDeserialize dmNone 5 (mkHdr 0 0 0 0 0 ++ ([] ++ [])) = .error .zeroObjectNum :=
  zero_object_num_rejected dmNone 5 0 0 0 0 [] [] (by decide) rfl

end MtRenderer
